import Mathlib

/-!
Shallow embedding of the PriceHound pricing-computation core.

Sources:
- the log-indexing wizard component (`src/unnamed/part_000`): derived
  quantities, product lookups, the local `parsePrice`, the per-category
  costs, `addToQuote`, and the "products not found" warning;
- the shared utilities (second segment of `src/frontend/src/lib/rum.ts`,
  the `$lib/utils` module): `parsePrice` and `parsePercentage`.

JavaScript strings are modelled as `List Char`; JavaScript numbers are
modelled as `ℚ` (exact real arithmetic, no binary-float rounding), and a
possibly-NaN number as `Option ℚ` with `none` standing for NaN.
-/

namespace PriceHound

/-- Character class of the regexes `[\d.]` / `[^\d.]`: a decimal digit or a dot. -/
def isDigitDot (c : Char) : Bool := c.isDigit || c == '.'

/-- Numeric value of a string of decimal digits (most significant first). -/
def digitsVal (l : List Char) : ℕ := l.foldl (fun n c => 10 * n + (c.toNat - 48)) 0

/-- Model of JavaScript `parseFloat` restricted to strings over digits and
dots, which is the only input shape the source ever feeds it (a `[\d.]+`
regex match, or a string with every other character stripped).  It parses
the longest prefix `digits ('.' digits)?`; `none` models the NaN result
produced when that prefix contains no digit. -/
def parseFloatDD (s : List Char) : Option ℚ :=
  let ip := s.takeWhile Char.isDigit
  let rest := s.dropWhile Char.isDigit
  match rest with
  | '.' :: rest2 =>
    let fp := rest2.takeWhile Char.isDigit
    if ip.isEmpty && fp.isEmpty then none
    else some ((digitsVal ip : ℚ) + (digitsVal fp : ℚ) / (10 : ℚ) ^ fp.length)
  | _ => if ip.isEmpty then none else some ((digitsVal ip : ℚ))

/-- Model of `str.match(/[\d.]+/)`: the first maximal run of digit-or-dot
characters, `none` when the string has no such character. -/
def firstDigitDotRun : List Char → Option (List Char)
  | [] => none
  | c :: cs =>
    if isDigitDot c then some (c :: cs.takeWhile isDigitDot)
    else firstDigitDotRun cs

/-- Model of JavaScript `toLowerCase` on the catalog's ASCII text. -/
def lowerStr (s : List Char) : List Char := s.map Char.toLower

/-- Does `s` start with `pre`?  Helper for the substring search below. -/
def startsWith : List Char → List Char → Bool
  | _, [] => true
  | [], _ :: _ => false
  | c :: cs, d :: ds => c == d && startsWith cs ds

/-- Model of JavaScript `String.prototype.includes`: does `sub` occur as a
contiguous substring of `s`? -/
def strIncludes (s sub : List Char) : Bool :=
  match s with
  | [] => startsWith [] sub
  | c :: t => startsWith (c :: t) sub || strIncludes t sub

/-- The catalog record type (`Product` from `$lib/api`), restricted to the
fields the pricing core reads: the product name, the billing unit, and the
annually-billed price text (nullable scraped text). -/
structure Product where
  product : List Char
  billing_unit : List Char
  billed_annually : Option (List Char)
deriving DecidableEq

/-- A quote line item as pushed by `addToQuote`:
`{ product: Product; quantity: number }` with `quantity = Math.ceil(...)`. -/
structure QuoteItem where
  product : Product
  quantity : ℤ
deriving DecidableEq

/-- NaN-propagating multiplication on JS numbers (`none` = NaN). -/
def nanMul : Option ℚ → Option ℚ → Option ℚ
  | some a, some b => some (a * b)
  | _, _ => none

/-- NaN-propagating addition on JS numbers (`none` = NaN). -/
def nanAdd : Option ℚ → Option ℚ → Option ℚ
  | some a, some b => some (a + b)
  | _, _ => none

namespace Utils

/-- `parsePrice` from `$lib/utils`:
`if (!priceStr || priceStr === '-' || priceStr === '') return 0;`
then strip every character that is not a digit or a dot from the whole
string and `parseFloat(cleaned) || 0` (the `|| 0` coalesces NaN to 0). -/
def parsePrice (priceStr : Option (List Char)) : ℚ :=
  match priceStr with
  | none => 0
  | some s =>
    if s.isEmpty || s == "-".toList then 0
    else (parseFloatDD (s.filter isDigitDot)).getD 0

/-- `parsePercentage` from `$lib/utils`:
`if (!priceStr || !priceStr.includes('%')) return 0;` then the same
strip-and-parse as `parsePrice`. -/
def parsePercentage (priceStr : Option (List Char)) : ℚ :=
  match priceStr with
  | none => 0
  | some s =>
    if s.isEmpty || !(s.contains '%') then 0
    else (parseFloatDD (s.filter isDigitDot)).getD 0

end Utils

namespace Wizard

/-- The wizard component's user-input state (its `let` bindings):
volume, entry size, indexing percentage, retention choice, and the three
optional add-ons' enable flags and usage counts. -/
structure WizardState where
  ingestedLogsGB : ℚ
  avgLogSizeKB : ℚ
  indexingPercentage : ℚ
  retentionDays : ℕ
  enableFlexStarter : Bool
  enableFlexStorage : Bool
  enableForwarding : Bool
  flexStarterEvents : ℚ
  flexStorageEvents : ℚ
  forwardingGB : ℚ
deriving DecidableEq

/-- `$: totalLogsPerMonth = (ingestedLogsGB * 1024 * 1024) / avgLogSizeKB;` -/
def totalLogsPerMonth (ingestedLogsGB avgLogSizeKB : ℚ) : ℚ :=
  (ingestedLogsGB * 1024 * 1024) / avgLogSizeKB

/-- `$: indexedLogsCount = totalLogsPerMonth * (indexingPercentage / 100);` -/
def indexedLogsCount (ingestedLogsGB avgLogSizeKB indexingPercentage : ℚ) : ℚ :=
  totalLogsPerMonth ingestedLogsGB avgLogSizeKB * (indexingPercentage / 100)

/-- `$: indexedLogsInMillions = indexedLogsCount / 1_000_000;` -/
def indexedLogsInMillions (ingestedLogsGB avgLogSizeKB indexingPercentage : ℚ) : ℚ :=
  indexedLogsCount ingestedLogsGB avgLogSizeKB indexingPercentage / 1000000

/-- Predicate of the ingestion lookup: name contains `'logs'` and
`'ingestion'` case-insensitively. -/
def ingestionPred (p : Product) : Bool :=
  strIncludes (lowerStr p.product) ("logs".toList) &&
  strIncludes (lowerStr p.product) ("ingestion".toList)

/-- The template literal `` `${retentionDays}-day` ``. -/
def retentionToken (retentionDays : ℕ) : List Char :=
  (toString retentionDays).toList ++ "-day".toList

/-- Predicate of the indexed-events lookup: name contains
`'indexed log events'` and billing unit contains the retention token,
both case-insensitively on the catalog side. -/
def indexedPred (retentionDays : ℕ) (p : Product) : Bool :=
  strIncludes (lowerStr p.product) ("indexed log events".toList) &&
  strIncludes (lowerStr p.billing_unit) (retentionToken retentionDays)

/-- Predicate of the Flex Logs Starter lookup: exact name equality. -/
def flexStarterPred (p : Product) : Bool := p.product == "Flex Logs Starter".toList

/-- Predicate of the Flex Logs Storage lookup: exact name equality. -/
def flexStoragePred (p : Product) : Bool := p.product == "Flex Logs Storage".toList

/-- Predicate of the forwarding lookup: exact name equality. -/
def forwardingPred (p : Product) : Bool :=
  p.product == "Logs - Forwarding to Custom Destinations".toList

/-- `$: ingestionProduct = products.find(...)` -/
def ingestionProduct (products : List Product) : Option Product :=
  products.find? ingestionPred

/-- `$: indexedProduct = products.find(...)` -/
def indexedProduct (products : List Product) (retentionDays : ℕ) : Option Product :=
  products.find? (indexedPred retentionDays)

/-- `$: flexStarterProduct = products.find(p => p.product === 'Flex Logs Starter')` -/
def flexStarterProduct (products : List Product) : Option Product :=
  products.find? flexStarterPred

/-- `$: flexStorageProduct = products.find(p => p.product === 'Flex Logs Storage')` -/
def flexStorageProduct (products : List Product) : Option Product :=
  products.find? flexStoragePred

/-- `$: forwardingProduct = products.find(...)` -/
def forwardingProduct (products : List Product) : Option Product :=
  products.find? forwardingPred

/-- The wizard component's local `parsePrice`:
`if (!priceStr) return 0;` (null/undefined or the empty string), then
`priceStr.match(/[\d.]+/)`, returning 0 when there is no match and
`parseFloat(match[0])` otherwise; `none` models a NaN result. -/
def parsePrice (priceStr : Option (List Char)) : Option ℚ :=
  match priceStr with
  | none => some 0
  | some s =>
    if s.isEmpty then some 0
    else
      match firstDigitDotRun s with
      | none => some 0
      | some run => parseFloatDD run

/-- `$: ingestionPrice = parsePrice(ingestionProduct?.billed_annually);` -/
def ingestionPrice (products : List Product) : Option ℚ :=
  parsePrice ((ingestionProduct products).bind Product.billed_annually)

/-- `$: indexedPrice = parsePrice(indexedProduct?.billed_annually);` -/
def indexedPrice (products : List Product) (retentionDays : ℕ) : Option ℚ :=
  parsePrice ((indexedProduct products retentionDays).bind Product.billed_annually)

/-- `$: flexStarterPrice = parsePrice(flexStarterProduct?.billed_annually);` -/
def flexStarterPrice (products : List Product) : Option ℚ :=
  parsePrice ((flexStarterProduct products).bind Product.billed_annually)

/-- `$: flexStoragePrice = parsePrice(flexStorageProduct?.billed_annually);` -/
def flexStoragePrice (products : List Product) : Option ℚ :=
  parsePrice ((flexStorageProduct products).bind Product.billed_annually)

/-- `$: forwardingPrice = parsePrice(forwardingProduct?.billed_annually);` -/
def forwardingPrice (products : List Product) : Option ℚ :=
  parsePrice ((forwardingProduct products).bind Product.billed_annually)

/-- `$: ingestionCost = ingestedLogsGB * ingestionPrice;` -/
def ingestionCost (products : List Product) (s : WizardState) : Option ℚ :=
  nanMul (some s.ingestedLogsGB) (ingestionPrice products)

/-- `$: indexedCost = indexedLogsInMillions * indexedPrice;` -/
def indexedCost (products : List Product) (s : WizardState) : Option ℚ :=
  nanMul (some (indexedLogsInMillions s.ingestedLogsGB s.avgLogSizeKB s.indexingPercentage))
    (indexedPrice products s.retentionDays)

/-- `$: flexStarterCost = enableFlexStarter ? flexStarterEvents * flexStarterPrice : 0;` -/
def flexStarterCost (products : List Product) (s : WizardState) : Option ℚ :=
  if s.enableFlexStarter then nanMul (some s.flexStarterEvents) (flexStarterPrice products)
  else some 0

/-- `$: flexStorageCost = enableFlexStorage ? flexStorageEvents * flexStoragePrice : 0;` -/
def flexStorageCost (products : List Product) (s : WizardState) : Option ℚ :=
  if s.enableFlexStorage then nanMul (some s.flexStorageEvents) (flexStoragePrice products)
  else some 0

/-- `$: forwardingCost = enableForwarding ? forwardingGB * forwardingPrice : 0;` -/
def forwardingCost (products : List Product) (s : WizardState) : Option ℚ :=
  if s.enableForwarding then nanMul (some s.forwardingGB) (forwardingPrice products)
  else some 0

/-- `$: additionalCost = flexStarterCost + flexStorageCost + forwardingCost;` -/
def additionalCost (products : List Product) (s : WizardState) : Option ℚ :=
  nanAdd (nanAdd (flexStarterCost products s) (flexStorageCost products s))
    (forwardingCost products s)

/-- `$: totalMonthlyCost = ingestionCost + indexedCost + additionalCost;` -/
def totalMonthlyCost (products : List Product) (s : WizardState) : Option ℚ :=
  nanAdd (nanAdd (ingestionCost products s) (indexedCost products s))
    (additionalCost products s)

/-- The annualized figure rendered by the summary panel:
`totalMonthlyCost * 12`. -/
def annualizedCost (products : List Product) (s : WizardState) : Option ℚ :=
  nanMul (totalMonthlyCost products s) (some 12)

/-- The item list built by `addToQuote`: five conditional pushes, in the
source's order (ingestion, indexed events, Flex Starter, Flex Storage,
forwarding), each guarded by the product match, the enable flag for
add-ons, and strict positivity of the continuous quantity, with
`Math.ceil` applied to the pushed quantity. -/
def addToQuoteItems (products : List Product) (s : WizardState) : List QuoteItem :=
  (match ingestionProduct products with
   | some p => if s.ingestedLogsGB > 0 then [⟨p, ⌈s.ingestedLogsGB⌉⟩] else []
   | none => []) ++
  (match indexedProduct products s.retentionDays with
   | some p =>
     if indexedLogsInMillions s.ingestedLogsGB s.avgLogSizeKB s.indexingPercentage > 0 then
       [⟨p, ⌈indexedLogsInMillions s.ingestedLogsGB s.avgLogSizeKB s.indexingPercentage⌉⟩]
     else []
   | none => []) ++
  (if s.enableFlexStarter then
     match flexStarterProduct products with
     | some p => if s.flexStarterEvents > 0 then [⟨p, ⌈s.flexStarterEvents⌉⟩] else []
     | none => []
   else []) ++
  (if s.enableFlexStorage then
     match flexStorageProduct products with
     | some p => if s.flexStorageEvents > 0 then [⟨p, ⌈s.flexStorageEvents⌉⟩] else []
     | none => []
   else []) ++
  (if s.enableForwarding then
     match forwardingProduct products with
     | some p => if s.forwardingGB > 0 then [⟨p, ⌈s.forwardingGB⌉⟩] else []
     | none => []
   else [])

/-- The sequence of `onAddToQuote` invocations performed by one run of
`addToQuote`: `if (items.length > 0) onAddToQuote(items);`. -/
def addToQuoteCalls (products : List Product) (s : WizardState) : List (List QuoteItem) :=
  let items := addToQuoteItems products s
  if items.length > 0 then [items] else []

/-- The "products not found" warning condition of the summary panel:
`{#if !ingestionProduct || !indexedProduct}`. -/
def notFoundWarning (products : List Product) (retentionDays : ℕ) : Bool :=
  (ingestionProduct products).isNone || (indexedProduct products retentionDays).isNone

/-- One conditional push of `addToQuote`, abstracted over the matched
product, the gating flag (`true` for the two mandatory categories) and the
continuous quantity; used to state what `addToQuoteItems` emits per
category. -/
def categoryItems (matched : Option Product) (enabled : Bool) (q : ℚ) : List QuoteItem :=
  if enabled then
    match matched with
    | some p => if q > 0 then [⟨p, ⌈q⌉⟩] else []
    | none => []
  else []

end Wizard

open Wizard

/-! Concrete catalog records and input states used by the witnesses. -/

/-- A catalog record matching the ingestion lookup. -/
def demoIngestion : Product :=
  ⟨"Logs - Ingestion".toList, "Per GB of uncompressed data".toList, some ("$0.10".toList)⟩

/-- A catalog record matching the indexed-events lookup at 15-day retention. -/
def demoIndexed : Product :=
  ⟨"Indexed Log Events".toList, "Per million log events (15-day retention)".toList,
    some ("$1.70".toList)⟩

/-- A catalog record matching the Flex Logs Starter lookup. -/
def demoFlexStarter : Product :=
  ⟨"Flex Logs Starter".toList, "Per million events".toList, some ("$0.60".toList)⟩

/-- A second record satisfying the ingestion predicate, to exercise the
first-match policy. -/
def demoIngestionDup : Product :=
  ⟨"Logs - Ingestion (legacy)".toList, "Per GB".toList, some ("$0.20".toList)⟩

def demoCatalog : List Product := [demoIngestion, demoIndexed, demoFlexStarter]

def demoCatalogDup : List Product := [demoIngestion, demoIngestionDup]

/-- The component's initial input state: 100 GB, 2 KB entries, 15 %
indexing, 15-day retention, all add-ons disabled. -/
def demoState : WizardState := ⟨100, 2, 15, 15, false, false, false, 10, 50, 20⟩

/-- The same state with 30-day retention requested. -/
def demoState30 : WizardState := ⟨100, 2, 15, 30, false, false, false, 10, 50, 20⟩

/-- The input state with every usage number zeroed. -/
def zeroState : WizardState := ⟨0, 2, 15, 15, false, false, false, 0, 0, 0⟩

/-- The default input state with all three add-ons enabled. -/
def demoStateOn : WizardState := ⟨100, 2, 15, 15, true, true, true, 10, 50, 20⟩

/-! Helper lemmas. -/

theorem find?_none {α : Type} (p : α → Bool) (l : List α)
    (h : ∀ x ∈ l, p x = false) : l.find? p = none := by
  induction l with
  | nil => rfl
  | cons x xs ih =>
    rw [List.find?_cons_of_neg]
    · exact ih fun y hy => h y (List.mem_cons_of_mem _ hy)
    · simp [h x (List.mem_cons_self _ _)]

theorem find?_first {α : Type} (p : α → Bool) (l : List α) (a : α)
    (h : l.find? p = some a) :
    p a = true ∧ ∃ l1 l2, l = l1 ++ a :: l2 ∧ ∀ b ∈ l1, p b = false := by
  induction l with
  | nil => simp [List.find?] at h
  | cons x xs ih =>
    cases hx : p x with
    | true =>
      rw [List.find?_cons_of_pos _ hx] at h
      cases h
      exact ⟨hx, [], xs, rfl, by simp⟩
    | false =>
      rw [List.find?_cons_of_neg _ (by simp [hx])] at h
      obtain ⟨hpa, l1, l2, hl, hl1⟩ := ih h
      refine ⟨hpa, x :: l1, l2, by rw [hl, List.cons_append], ?_⟩
      intro b hb
      rcases List.mem_cons.mp hb with rfl | hb2
      · exact hx
      · exact hl1 _ hb2

theorem nanAdd_assoc (a b c : Option ℚ) :
    nanAdd (nanAdd a b) c = nanAdd a (nanAdd b c) := by
  cases a <;> cases b <;> cases c <;> simp [nanAdd, add_assoc]

theorem nanMul_some_zero (a : ℚ) : nanMul (some a) (some 0) = some 0 := by
  simp [nanMul]

theorem one_le_ceil_of_pos {q : ℚ} (h : 0 < q) : 1 ≤ ⌈q⌉ := by
  have := Int.ceil_pos.mpr h
  omega

theorem categoryItems_not_enabled (m : Option Product) (q : ℚ) :
    categoryItems m false q = [] := rfl

theorem categoryItems_nonpos (m : Option Product) (e : Bool) {q : ℚ}
    (h : ¬ q > 0) : categoryItems m e q = [] := by
  cases e <;> cases m <;> simp [categoryItems, h]

theorem mem_categoryItems {m : Option Product} {e : Bool} {q : ℚ} {it : QuoteItem}
    (h : it ∈ categoryItems m e q) :
    m = some it.product ∧ it.quantity = ⌈q⌉ ∧ e = true ∧ 0 < q := by
  cases e with
  | false => simp [categoryItems] at h
  | true =>
    cases m with
    | none => simp [categoryItems] at h
    | some p =>
      by_cases hq : q > 0
      · simp [categoryItems, hq] at h
        subst h
        exact ⟨rfl, rfl, rfl, hq⟩
      · simp [categoryItems, hq] at h

theorem categoryItems_ne_nil_iff (m : Option Product) (e : Bool) (q : ℚ) :
    categoryItems m e q ≠ [] ↔ m.isSome = true ∧ e = true ∧ 0 < q := by
  cases e <;> cases m <;> by_cases hq : q > 0 <;> simp [categoryItems, hq]

theorem addToQuoteItems_eq (ps : List Product) (s : WizardState) :
    addToQuoteItems ps s =
      categoryItems (ingestionProduct ps) true s.ingestedLogsGB ++
      categoryItems (indexedProduct ps s.retentionDays) true
        (indexedLogsInMillions s.ingestedLogsGB s.avgLogSizeKB s.indexingPercentage) ++
      categoryItems (flexStarterProduct ps) s.enableFlexStarter s.flexStarterEvents ++
      categoryItems (flexStorageProduct ps) s.enableFlexStorage s.flexStorageEvents ++
      categoryItems (forwardingProduct ps) s.enableForwarding s.forwardingGB := by
  unfold addToQuoteItems categoryItems
  cases ingestionProduct ps <;> cases indexedProduct ps s.retentionDays <;>
    cases flexStarterProduct ps <;> cases flexStorageProduct ps <;>
    cases forwardingProduct ps <;> cases s.enableFlexStarter <;>
    cases s.enableFlexStorage <;> cases s.enableForwarding <;> simp

/-! Claim theorems. -/

/-- Claim C3: the derived quantities satisfy
`totalEntries = ingestedGB * 1024 * 1024 / avgEntryKB`,
`indexedEntries = totalEntries * (indexingPercent / 100)` and
`indexedInMillions = indexedEntries / 1000000`, with no intermediate
rounding (the model computes in exact rationals); in particular for
ingestedGB = 100 and avgEntryKB = 2 the total is 52428800, and with
indexingPercent = 15 the indexed count is 7864320, i.e. 7.86432 million. -/
theorem derived_quantities (gb kb pct : ℚ) :
    totalLogsPerMonth gb kb = gb * 1024 * 1024 / kb
    ∧ indexedLogsCount gb kb pct = totalLogsPerMonth gb kb * (pct / 100)
    ∧ indexedLogsInMillions gb kb pct = indexedLogsCount gb kb pct / 1000000
    ∧ totalLogsPerMonth 100 2 = 52428800
    ∧ indexedLogsCount 100 2 15 = 7864320
    ∧ indexedLogsInMillions 100 2 15 = 7.864320 := by
  refine ⟨rfl, rfl, rfl, ?_, ?_, ?_⟩
  · norm_num [totalLogsPerMonth]
  · norm_num [indexedLogsCount, totalLogsPerMonth]
  · norm_num [indexedLogsInMillions, indexedLogsCount, totalLogsPerMonth]

/-- Claim C9: `parsePercentage` yields 0 whenever the text has no `%`
marker, regardless of any digits present; with a marker it parses the
digits, so `parsePercentage "15%" = 15` while `parsePercentage "15" = 0`. -/
theorem parsePercentage_marker :
    (∀ s : List Char, s.contains '%' = false → Utils.parsePercentage (some s) = 0)
    ∧ Utils.parsePercentage (some ("15%".toList)) = 15
    ∧ Utils.parsePercentage (some ("15".toList)) = 0 := by
  refine ⟨?_, by decide, by decide⟩
  intro s h
  simp only [Utils.parsePercentage]
  rw [h]
  simp

/-- Witness for C9: a digit-free, marker-free text parses to 0. -/
theorem parsePercentage_marker_witness :
    Utils.parsePercentage (some ("abc".toList)) = 0 :=
  parsePercentage_marker.1 _ (by decide)

/-- Claim C10: one run of `addToQuote` invokes the `onAddToQuote` callback
at most once, never with an empty item list; when the built list is empty
the callback is not invoked at all, and when it is non-empty the callback
is invoked exactly once with that list. -/
theorem addToQuote_callback_once (ps : List Product) (s : WizardState) :
    (addToQuoteCalls ps s).length ≤ 1
    ∧ (∀ c ∈ addToQuoteCalls ps s, c ≠ [])
    ∧ (addToQuoteItems ps s = [] → addToQuoteCalls ps s = [])
    ∧ (addToQuoteItems ps s ≠ [] → addToQuoteCalls ps s = [addToQuoteItems ps s]) := by
  cases hi : addToQuoteItems ps s with
  | nil => simp [addToQuoteCalls, hi]
  | cons a t => simp [addToQuoteCalls, hi]

/-- Witness for C10: on an empty catalog nothing qualifies and the
callback is never invoked. -/
theorem addToQuote_callback_once_witness :
    addToQuoteCalls [] demoState = [] :=
  (addToQuote_callback_once [] demoState).2.2.1 (by decide)

/-- Claim C7: each product lookup scans the catalog in its given order and
returns the first record satisfying its predicate — a conjunction of
case-insensitive name substrings (ingestion), optionally combined with a
billing-unit substring (indexed events), or exact-name equality (add-ons)
— and returns absent when no record satisfies it; with several satisfying
records the first in catalog order wins, without error. -/
theorem matcher_first_match (ps : List Product) (rd : ℕ) :
    ((∀ p ∈ ps, ingestionPred p = false) → ingestionProduct ps = none)
    ∧ (∀ a, ingestionProduct ps = some a →
        ingestionPred a = true
        ∧ ∃ l1 l2, ps = l1 ++ a :: l2 ∧ ∀ b ∈ l1, ingestionPred b = false)
    ∧ ((∀ p ∈ ps, indexedPred rd p = false) → indexedProduct ps rd = none)
    ∧ (∀ a, indexedProduct ps rd = some a →
        indexedPred rd a = true
        ∧ ∃ l1 l2, ps = l1 ++ a :: l2 ∧ ∀ b ∈ l1, indexedPred rd b = false)
    ∧ ((∀ p ∈ ps, flexStarterPred p = false) → flexStarterProduct ps = none)
    ∧ (∀ a, flexStarterProduct ps = some a →
        flexStarterPred a = true
        ∧ ∃ l1 l2, ps = l1 ++ a :: l2 ∧ ∀ b ∈ l1, flexStarterPred b = false) := by
  refine ⟨fun h => find?_none _ _ h, fun a ha => find?_first _ _ _ ha,
    fun h => find?_none _ _ h, fun a ha => find?_first _ _ _ ha,
    fun h => find?_none _ _ h, fun a ha => find?_first _ _ _ ha⟩

/-- Witness for C7: on a catalog with two records satisfying the ingestion
predicate, the lookup returns the first and the decomposition exhibits it
at the head. -/
theorem matcher_first_match_witness :
    ingestionPred demoIngestion = true
    ∧ ∃ l1 l2, demoCatalogDup = l1 ++ demoIngestion :: l2
        ∧ ∀ b ∈ l1, ingestionPred b = false :=
  (matcher_first_match demoCatalogDup 15).2.1 demoIngestion (by decide)

/-- Claim C6: when no catalog record's billing unit contains the
configured retention token, the indexed-events match is absent, its parsed
unit price is 0, its category cost is 0, and the indexed-product-found
flag is false, with no exception (all functions are total); moreover the
not-found warning is exactly the condition that one of the two mandatory
matches (ingestion, indexed events) is absent — it takes no add-on match
or enable flag into account. -/
theorem indexed_not_found (ps : List Product) (s : WizardState)
    (h : ∀ p ∈ ps,
      strIncludes (lowerStr p.billing_unit) (retentionToken s.retentionDays) = false) :
    indexedProduct ps s.retentionDays = none
    ∧ indexedPrice ps s.retentionDays = some 0
    ∧ indexedCost ps s = some 0
    ∧ (indexedProduct ps s.retentionDays).isSome = false
    ∧ notFoundWarning ps s.retentionDays =
        ((ingestionProduct ps).isNone || (indexedProduct ps s.retentionDays).isNone)
    ∧ (notFoundWarning ps s.retentionDays = false ↔
        (ingestionProduct ps).isSome = true
        ∧ (indexedProduct ps s.retentionDays).isSome = true) := by
  have hnone : indexedProduct ps s.retentionDays = none :=
    find?_none _ _ (fun p hp => by simp [indexedPred, h p hp])
  have hprice : indexedPrice ps s.retentionDays = some 0 := by
    rw [indexedPrice, hnone]; rfl
  refine ⟨hnone, hprice, ?_, by rw [hnone]; rfl, rfl, ?_⟩
  · rw [indexedCost, hprice]
    exact nanMul_some_zero _
  · rw [notFoundWarning]
    cases hi : ingestionProduct ps <;> rw [hnone] <;> simp

/-- Witness for C6: the demo catalog has no 30-day billing unit, so the
indexed-events match at 30-day retention is absent. -/
theorem indexed_not_found_witness :
    indexedProduct demoCatalog demoState30.retentionDays = none
    ∧ indexedCost demoCatalog demoState30 = some 0 :=
  ⟨(indexed_not_found demoCatalog demoState30 (by decide)).1,
   (indexed_not_found demoCatalog demoState30 (by decide)).2.2.1⟩

/-- Claim C2: each of the five category costs is that category's billing
quantity times its parsed unit price (NaN-propagating, `none` = NaN) —
unconditionally for the two mandatory categories and under its enable flag
for each add-on; an add-on whose enable flag is false costs exactly 0
regardless of its configured usage count; each of the five categories
whose product did not match has parsed price 0 and contributes cost 0
without an error; the monthly total is the sum of the five category costs;
and the annualized figure is the monthly total times 12. -/
theorem cost_aggregation (ps : List Product) (s : WizardState) :
    ingestionCost ps s = nanMul (some s.ingestedLogsGB) (ingestionPrice ps)
    ∧ indexedCost ps s =
        nanMul
          (some (indexedLogsInMillions s.ingestedLogsGB s.avgLogSizeKB s.indexingPercentage))
          (indexedPrice ps s.retentionDays)
    ∧ (s.enableFlexStarter = true →
        flexStarterCost ps s = nanMul (some s.flexStarterEvents) (flexStarterPrice ps))
    ∧ (s.enableFlexStorage = true →
        flexStorageCost ps s = nanMul (some s.flexStorageEvents) (flexStoragePrice ps))
    ∧ (s.enableForwarding = true →
        forwardingCost ps s = nanMul (some s.forwardingGB) (forwardingPrice ps))
    ∧ (s.enableFlexStarter = false → flexStarterCost ps s = some 0)
    ∧ (s.enableFlexStorage = false → flexStorageCost ps s = some 0)
    ∧ (s.enableForwarding = false → forwardingCost ps s = some 0)
    ∧ (ingestionProduct ps = none →
        ingestionPrice ps = some 0 ∧ ingestionCost ps s = some 0)
    ∧ (indexedProduct ps s.retentionDays = none →
        indexedPrice ps s.retentionDays = some 0 ∧ indexedCost ps s = some 0)
    ∧ (flexStarterProduct ps = none →
        flexStarterPrice ps = some 0 ∧ flexStarterCost ps s = some 0)
    ∧ (flexStorageProduct ps = none →
        flexStoragePrice ps = some 0 ∧ flexStorageCost ps s = some 0)
    ∧ (forwardingProduct ps = none →
        forwardingPrice ps = some 0 ∧ forwardingCost ps s = some 0)
    ∧ totalMonthlyCost ps s =
        nanAdd (ingestionCost ps s) (nanAdd (indexedCost ps s)
          (nanAdd (flexStarterCost ps s)
            (nanAdd (flexStorageCost ps s) (forwardingCost ps s))))
    ∧ annualizedCost ps s = nanMul (totalMonthlyCost ps s) (some 12) := by
  refine ⟨rfl, rfl, ?_, ?_, ?_, ?_, ?_, ?_, ?_, ?_, ?_, ?_, ?_, ?_, rfl⟩
  · intro h; simp [flexStarterCost, h]
  · intro h; simp [flexStorageCost, h]
  · intro h; simp [forwardingCost, h]
  · intro h; simp [flexStarterCost, h]
  · intro h; simp [flexStorageCost, h]
  · intro h; simp [forwardingCost, h]
  · intro h
    have hp : ingestionPrice ps = some 0 := by rw [ingestionPrice, h]; rfl
    exact ⟨hp, by rw [ingestionCost, hp]; exact nanMul_some_zero _⟩
  · intro h
    have hp : indexedPrice ps s.retentionDays = some 0 := by rw [indexedPrice, h]; rfl
    exact ⟨hp, by rw [indexedCost, hp]; exact nanMul_some_zero _⟩
  · intro h
    have hp : flexStarterPrice ps = some 0 := by rw [flexStarterPrice, h]; rfl
    refine ⟨hp, ?_⟩
    unfold flexStarterCost
    rw [hp]
    cases s.enableFlexStarter <;> simp [nanMul]
  · intro h
    have hp : flexStoragePrice ps = some 0 := by rw [flexStoragePrice, h]; rfl
    refine ⟨hp, ?_⟩
    unfold flexStorageCost
    rw [hp]
    cases s.enableFlexStorage <;> simp [nanMul]
  · intro h
    have hp : forwardingPrice ps = some 0 := by rw [forwardingPrice, h]; rfl
    refine ⟨hp, ?_⟩
    unfold forwardingCost
    rw [hp]
    cases s.enableForwarding <;> simp [nanMul]
  · simp [totalMonthlyCost, additionalCost, nanAdd_assoc]

/-- Witness for C2: on an empty catalog the ingestion price parses to 0
and the ingestion cost is 0; with its flag off the Flex Starter add-on
costs exactly 0; the unmatched Flex Storage and forwarding add-ons have
price 0 and cost 0 even with their flags on; and with all flags on the
Flex Storage cost is its event count times its parsed price. -/
theorem cost_aggregation_witness :
    ingestionPrice [] = some 0
    ∧ ingestionCost [] demoState = some 0
    ∧ flexStarterCost [] demoState = some 0
    ∧ flexStoragePrice [] = some 0
    ∧ flexStorageCost [] demoStateOn = some 0
    ∧ forwardingCost [] demoStateOn = some 0
    ∧ flexStorageCost demoCatalog demoStateOn =
        nanMul (some demoStateOn.flexStorageEvents) (flexStoragePrice demoCatalog) := by
  obtain ⟨-, -, -, -, -, h6, -, -, h9, -, -, h12, h13, -, -⟩ :=
    cost_aggregation [] demoState
  obtain ⟨-, -, -, -, -, -, -, -, -, -, -, g12, g13, -, -⟩ :=
    cost_aggregation [] demoStateOn
  obtain ⟨-, -, -, k4, -, -, -, -, -, -, -, -, -, -, -⟩ :=
    cost_aggregation demoCatalog demoStateOn
  exact ⟨(h9 rfl).1, (h9 rfl).2, h6 rfl, (h12 rfl).1, (g12 rfl).2, (g13 rfl).2, k4 rfl⟩

/-- Claim C1: `addToQuote` builds exactly the concatenation of one
optional item per category in the fixed order ingestion, indexed events,
Flex Starter, Flex Storage, forwarding; a category contributes an item iff
its product matched, its enable flag (for add-ons) is set, and its
continuous quantity is strictly positive; every contributed item carries
that category's matched product and the ceiling of its continuous
quantity; a disabled add-on contributes nothing; and every emitted item
has quantity at least 1. -/
theorem addToQuote_builds_items (ps : List Product) (s : WizardState) :
    addToQuoteItems ps s =
      categoryItems (ingestionProduct ps) true s.ingestedLogsGB ++
      categoryItems (indexedProduct ps s.retentionDays) true
        (indexedLogsInMillions s.ingestedLogsGB s.avgLogSizeKB s.indexingPercentage) ++
      categoryItems (flexStarterProduct ps) s.enableFlexStarter s.flexStarterEvents ++
      categoryItems (flexStorageProduct ps) s.enableFlexStorage s.flexStorageEvents ++
      categoryItems (forwardingProduct ps) s.enableForwarding s.forwardingGB
    ∧ (∀ m e q, categoryItems m e q ≠ [] ↔ m.isSome = true ∧ e = true ∧ 0 < q)
    ∧ (∀ m e q it, it ∈ categoryItems m e q →
        m = some it.product ∧ it.quantity = ⌈q⌉ ∧ e = true ∧ 0 < q)
    ∧ (∀ m q, categoryItems m false q = [])
    ∧ (∀ it ∈ addToQuoteItems ps s, 1 ≤ it.quantity) := by
  refine ⟨addToQuoteItems_eq ps s, fun m e q => categoryItems_ne_nil_iff m e q,
    fun m e q it h => mem_categoryItems h, fun m q => categoryItems_not_enabled m q, ?_⟩
  intro it hit
  rw [addToQuoteItems_eq] at hit
  simp only [List.mem_append] at hit
  rcases hit with ((((h | h) | h) | h) | h) <;>
  · obtain ⟨-, hq, -, hpos⟩ := mem_categoryItems h
    rw [hq]
    exact one_le_ceil_of_pos hpos

/-- Witness for C1: the demo catalog and default inputs yield the
quantity bound on a concrete emitted item (the 100 GB ingestion line) and
the per-category decomposition. -/
theorem addToQuote_builds_items_witness :
    (1 : ℤ) ≤ (QuoteItem.mk demoIngestion 100).quantity
    ∧ addToQuoteItems demoCatalog demoState =
        categoryItems (ingestionProduct demoCatalog) true demoState.ingestedLogsGB ++
        categoryItems (indexedProduct demoCatalog demoState.retentionDays) true
          (indexedLogsInMillions demoState.ingestedLogsGB demoState.avgLogSizeKB
            demoState.indexingPercentage) ++
        categoryItems (flexStarterProduct demoCatalog) demoState.enableFlexStarter
          demoState.flexStarterEvents ++
        categoryItems (flexStorageProduct demoCatalog) demoState.enableFlexStorage
          demoState.flexStorageEvents ++
        categoryItems (forwardingProduct demoCatalog) demoState.enableForwarding
          demoState.forwardingGB :=
  ⟨(addToQuote_builds_items demoCatalog demoState).2.2.2.2 _ (by decide),
   (addToQuote_builds_items demoCatalog demoState).1⟩

/-- Claim C8 counterexample: the usage input ingestedGB = -5 (with
avgEntryKB = 2) is a non-positive usage number, yet the derived quantity
it feeds is -2621440 — neither 0 (as the claim's first part requires) nor
≥ 0 (as its second part requires). -/
theorem negative_usage_cex :
    totalLogsPerMonth (-5) 2 = -2621440
    ∧ ¬ (0 ≤ totalLogsPerMonth (-5) 2)
    ∧ ¬ totalLogsPerMonth (-5) 2 = 0 := by
  norm_num [totalLogsPerMonth]

/-- Claim C8 amended: a zero ingested volume (with a positive entry size)
yields derived quantities 0; a category whose continuous quantity is not
strictly positive generates no quote item, and when every gated quantity
is non-positive no item at all is generated; and the derived quantities
are non-negative provided the usage numbers are non-negative and the entry
size positive — a negative usage number instead propagates to a negative
derived quantity rather than being clamped to 0. -/
theorem derived_quantity_gating (ps : List Product) (s : WizardState) :
    (s.ingestedLogsGB = 0 →
      totalLogsPerMonth s.ingestedLogsGB s.avgLogSizeKB = 0
      ∧ indexedLogsCount s.ingestedLogsGB s.avgLogSizeKB s.indexingPercentage = 0
      ∧ indexedLogsInMillions s.ingestedLogsGB s.avgLogSizeKB s.indexingPercentage = 0)
    ∧ (0 ≤ s.ingestedLogsGB → 0 < s.avgLogSizeKB → 0 ≤ s.indexingPercentage →
      0 ≤ totalLogsPerMonth s.ingestedLogsGB s.avgLogSizeKB
      ∧ 0 ≤ indexedLogsCount s.ingestedLogsGB s.avgLogSizeKB s.indexingPercentage
      ∧ 0 ≤ indexedLogsInMillions s.ingestedLogsGB s.avgLogSizeKB s.indexingPercentage)
    ∧ (¬ s.ingestedLogsGB > 0 →
        categoryItems (ingestionProduct ps) true s.ingestedLogsGB = [])
    ∧ (¬ indexedLogsInMillions s.ingestedLogsGB s.avgLogSizeKB s.indexingPercentage > 0 →
        categoryItems (indexedProduct ps s.retentionDays) true
          (indexedLogsInMillions s.ingestedLogsGB s.avgLogSizeKB s.indexingPercentage) = [])
    ∧ (¬ s.flexStarterEvents > 0 →
        categoryItems (flexStarterProduct ps) s.enableFlexStarter s.flexStarterEvents = [])
    ∧ (¬ s.flexStorageEvents > 0 →
        categoryItems (flexStorageProduct ps) s.enableFlexStorage s.flexStorageEvents = [])
    ∧ (¬ s.forwardingGB > 0 →
        categoryItems (forwardingProduct ps) s.enableForwarding s.forwardingGB = [])
    ∧ (¬ s.ingestedLogsGB > 0 →
        ¬ indexedLogsInMillions s.ingestedLogsGB s.avgLogSizeKB s.indexingPercentage > 0 →
        ¬ s.flexStarterEvents > 0 → ¬ s.flexStorageEvents > 0 → ¬ s.forwardingGB > 0 →
        addToQuoteItems ps s = []) := by
  refine ⟨?_, ?_, fun h => categoryItems_nonpos _ _ h, fun h => categoryItems_nonpos _ _ h,
    fun h => categoryItems_nonpos _ _ h, fun h => categoryItems_nonpos _ _ h,
    fun h => categoryItems_nonpos _ _ h, ?_⟩
  · intro h0
    simp [totalLogsPerMonth, indexedLogsCount, indexedLogsInMillions, h0]
  · intro hg hk hp
    have ht : 0 ≤ totalLogsPerMonth s.ingestedLogsGB s.avgLogSizeKB := by
      unfold totalLogsPerMonth
      apply div_nonneg _ hk.le
      positivity
    have hc : 0 ≤ indexedLogsCount s.ingestedLogsGB s.avgLogSizeKB s.indexingPercentage := by
      unfold indexedLogsCount
      exact mul_nonneg ht (by positivity)
    refine ⟨ht, hc, ?_⟩
    unfold indexedLogsInMillions
    positivity
  · intro h1 h2 h3 h4 h5
    rw [addToQuoteItems_eq, categoryItems_nonpos _ _ h1, categoryItems_nonpos _ _ h2,
      categoryItems_nonpos _ _ h3, categoryItems_nonpos _ _ h4, categoryItems_nonpos _ _ h5]
    rfl

/-- Witness for the amended C8: at zero usage the derived quantity is 0
and no quote item is generated. -/
theorem derived_quantity_gating_witness :
    totalLogsPerMonth zeroState.ingestedLogsGB zeroState.avgLogSizeKB = 0
    ∧ addToQuoteItems [] zeroState = [] :=
  ⟨((derived_quantity_gating [] zeroState).1 rfl).1,
   (derived_quantity_gating [] zeroState).2.2.2.2.2.2.2
     (by norm_num [zeroState])
     (by norm_num [zeroState, indexedLogsInMillions, indexedLogsCount, totalLogsPerMonth])
     (by norm_num [zeroState]) (by norm_num [zeroState]) (by norm_num [zeroState])⟩

/-- Claim C4 counterexample: on the thousands-separated price "$1,700" the
two `parsePrice` implementations disagree — the wizard's `[\d.]+` match
stops at the comma and yields 1, while the utilities' strip-everything
approach concatenates the separated digit groups and yields 1700 — so the
single extraction rule the claim states (first maximal digit run, with
thousands separators ignored) cannot describe both: under that rule the
value would be 1700, which the wizard's parser does not produce. -/
theorem parsePrice_separator_divergence :
    Wizard.parsePrice (some ("$1,700".toList)) = some 1
    ∧ Utils.parsePrice (some ("$1,700".toList)) = 1700 := by decide

/-- Claim C4 amended: both parsers yield 0 on absent, empty, or
placeholder ("-") input; the wizard's parser extracts the first maximal
run of digit-or-dot characters and parses its decimal prefix (so a
thousands separator truncates the value: "$1,700" gives 1), yielding 0
when the text has no digit-or-dot character at all (and NaN when the run
itself parses to NaN); the utilities' parser instead strips every
character other than digits and dots from the whole text, concatenating
separated digit groups ("$1,700" gives 1700), and yields 0 when parsing
fails; both give 1.70 on "$1.70". -/
theorem parsePrice_extraction_amended (s : List Char) :
    (firstDigitDotRun s = none → Wizard.parsePrice (some s) = some 0)
    ∧ (∀ run, s ≠ [] → firstDigitDotRun s = some run →
        Wizard.parsePrice (some s) = parseFloatDD run)
    ∧ (s ≠ [] → ¬ s = "-".toList →
        Utils.parsePrice (some s) = (parseFloatDD (s.filter isDigitDot)).getD 0)
    ∧ Wizard.parsePrice none = some 0
    ∧ Utils.parsePrice none = 0
    ∧ Wizard.parsePrice (some []) = some 0
    ∧ Utils.parsePrice (some []) = 0
    ∧ Wizard.parsePrice (some ("-".toList)) = some 0
    ∧ Utils.parsePrice (some ("-".toList)) = 0
    ∧ Wizard.parsePrice (some ("$1.70".toList)) = some (17 / 10)
    ∧ Utils.parsePrice (some ("$1.70".toList)) = 17 / 10
    ∧ Wizard.parsePrice (some ("$1,700".toList)) = some 1
    ∧ Utils.parsePrice (some ("$1,700".toList)) = 1700 := by
  refine ⟨?_, ?_, ?_, by decide, by decide, by decide, by decide, by decide, by decide,
    ?_, ?_, by decide, by decide⟩
  · intro h
    simp [Wizard.parsePrice, h]
  · intro run hne hrun
    cases s with
    | nil => cases hne rfl
    | cons c cs => simp [Wizard.parsePrice, hrun]
  · intro hne hdash
    cases s with
    | nil => cases hne rfl
    | cons c cs =>
      have hb : ((c :: cs : List Char) == "-".toList) = false :=
        beq_eq_false_iff_ne.mpr hdash
      simp [Utils.parsePrice, hb]
      intro hc hcs
      subst hc
      subst hcs
      exact absurd rfl hdash
  · have h : Wizard.parsePrice (some ("$1.70".toList)) =
        some (((1 : ℕ) : ℚ) + ((70 : ℕ) : ℚ) / (10 : ℚ) ^ (2 : ℕ)) := rfl
    rw [h]
    norm_num
  · have h : Utils.parsePrice (some ("$1.70".toList)) =
        ((1 : ℕ) : ℚ) + ((70 : ℕ) : ℚ) / (10 : ℚ) ^ (2 : ℕ) := rfl
    rw [h]
    norm_num

/-- Witness for the amended C4: a digit-free text parses to 0 in the
wizard, and the utilities' parser on "$1,700" equals the strip-and-parse
of its digit characters. -/
theorem parsePrice_extraction_amended_witness :
    Wizard.parsePrice (some ("abc".toList)) = some 0
    ∧ Utils.parsePrice (some ("$1,700".toList)) =
        (parseFloatDD (("$1,700".toList).filter isDigitDot)).getD 0 :=
  ⟨(parsePrice_extraction_amended ("abc".toList)).1 (by decide),
   (parsePrice_extraction_amended ("$1,700".toList)).2.2.1 (by decide) (by decide)⟩

/-- Claim C5, code evaluated at the failing input: on the price text "."
the wizard's `parsePrice` matches the run "." and `parseFloat` yields NaN
(modelled `none`) instead of degrading to 0, while the utilities'
`parsePrice` does degrade to 0 there. -/
theorem parsePrice_dot_nan :
    Wizard.parsePrice (some (".".toList)) = none
    ∧ Utils.parsePrice (some (".".toList)) = 0 := by decide

end PriceHound
